import Mathlib

/-!
Shallow embedding of `src/etl.py` (marshall7m/sparkify_aws_dl): a batch ETL
job that reads song (catalog) and log (event) JSON records, builds a star
schema of five tables with Spark SQL, and writes them as parquet files.

Relations are embedded as Lean lists of structure rows; Spark SQL
`SELECT DISTINCT` is `List.dedup`; `df.filter` is `List.filter`; the inner
join is a nested-loop product filtered on the join condition.  Numeric JSON
fields are modelled with `Int`/`Rat` (exact arithmetic stands in for the
engine's doubles); the nullable `ts` field is `Option Int`.  Timestamps are
represented by their microsecond count since the epoch, Spark's internal
representation, in UTC.  `monotonically_increasing_id()` is modelled by a
run-dependent injective function `Nat → Int` applied to the row position.
-/

namespace SparkifyEtl

/-- One catalog (song) JSON record, as read by `spark.read.json` from
`song_data/*/*/*/*.json` (src/etl.py lines 37-40 and 134). -/
structure SongRecord where
  song_id : String
  title : String
  artist_id : String
  year : Int
  duration : Rat
  artist_name : String
  artist_location : String
  artist_latitude : Rat
  artist_longitude : Rat
deriving DecidableEq, Repr

/-- One event (log) JSON record, as read by `spark.read.json` from
`log_data/*.json` (src/etl.py lines 87-90).  `ts` is the millisecond epoch
timestamp; it is nullable (`Option`) so that records with a missing `ts`
can be represented. -/
structure LogRecord where
  page : String
  userId : String
  firstName : String
  lastName : String
  gender : String
  level : String
  ts : Option Int
  sessionId : Int
  song : String
  artist : String
  userAgent : String
deriving DecidableEq, Repr

/-! ### Models of the Spark SQL builtin functions used by the queries

These model engine builtins (`to_timestamp`, `hour`, `dayofweek`,
`weekofyear`, `month`, `year`), which are external collaborators of the
source, with the session timezone taken as UTC.  The calendar conversion
follows the standard proleptic-Gregorian civil-from-days algorithm. -/

/-- Model of Spark's `to_timestamp(ts/1000)` for a non-null bigint `ts`
(src/etl.py lines 124 and 142).  In Spark SQL, `/` on integral operands is
true division producing a DOUBLE (`ts/1000` keeps the fractional,
sub-second part), and `to_timestamp(e)` without a format string is
`CAST(e AS TIMESTAMP)`, which interprets the double as seconds since the
epoch and keeps the fraction to microsecond precision.  So the resulting
timestamp, measured in microseconds, is `(ts / 1000) * 1000000 = ts * 1000`
(exact arithmetic stands in for the engine's double rounding). -/
def to_timestamp_micros (ts : Int) : Int := ts * 1000

/-- The seconds-since-epoch of a timestamp given in microseconds. -/
def secondsOf (micros : Int) : Int := micros.fdiv 1000000

/-- Days since 1970-01-01 of a timestamp given in epoch seconds (UTC). -/
def epochDayOf (s : Int) : Int := s.fdiv 86400

/-- Model of Spark's `hour(timestamp)` builtin (UTC). -/
def hourOf (s : Int) : Int := (s.fdiv 3600).emod 24

/-- Model of Spark's `dayofweek(timestamp)` builtin: 1 = Sunday, ...,
7 = Saturday.  1970-01-01 (epoch day 0) was a Thursday (= 5). -/
def dayofweekOf (s : Int) : Int := (epochDayOf s + 4).emod 7 + 1

/-- Civil proleptic-Gregorian date `(year, month, day)` from a count of
days since 1970-01-01. -/
def civilFromDays (z0 : Int) : Int × Int × Int :=
  let z := z0 + 719468
  let era := z.fdiv 146097
  let doe := z - era * 146097
  let yoe := (doe - doe.fdiv 1460 + doe.fdiv 36524 - doe.fdiv 146096).fdiv 365
  let y := yoe + era * 400
  let doy := doe - (365 * yoe + yoe.fdiv 4 - yoe.fdiv 100)
  let mp := (5 * doy + 2).fdiv 153
  let d := doy - (153 * mp + 2).fdiv 5 + 1
  let m := mp + (if mp < 10 then 3 else -9)
  (y + (if m ≤ 2 then 1 else 0), m, d)

/-- Days since 1970-01-01 of a civil proleptic-Gregorian date. -/
def daysFromCivil (y0 m d : Int) : Int :=
  let y := y0 - (if m ≤ 2 then 1 else 0)
  let era := y.fdiv 400
  let yoe := y - era * 400
  let doy := (153 * (m + (if 2 < m then -3 else 9)) + 2).fdiv 5 + d - 1
  let doe := yoe * 365 + yoe.fdiv 4 - yoe.fdiv 100 + doy
  era * 146097 + doe - 719468

/-- Model of Spark's `year(timestamp)` builtin (UTC). -/
def yearOf (s : Int) : Int := (civilFromDays (epochDayOf s)).1

/-- Model of Spark's `month(timestamp)` builtin (UTC). -/
def monthOf (s : Int) : Int := (civilFromDays (epochDayOf s)).2.1

/-- ISO-8601 day of week (1 = Monday, ..., 7 = Sunday) of an epoch day. -/
def isoDayOfWeek (day : Int) : Int := (day + 3).emod 7 + 1

/-- Model of Spark's `weekofyear(timestamp)` builtin: the ISO-8601 week
number, computed as the week of the Thursday of the timestamp's week. -/
def weekofyearOf (s : Int) : Int :=
  let day := epochDayOf s
  let thursday := day + 4 - isoDayOfWeek day
  let y := (civilFromDays thursday).1
  (thursday - daysFromCivil y 1 1).fdiv 7 + 1

/-! ### The five output tables -/

/-- A row of the songs table (src/etl.py lines 46-54). -/
structure SongsRow where
  song_id : String
  title : String
  artist_id : String
  year : Int
  duration : Rat
deriving DecidableEq, Repr

/-- A row of the artists table (src/etl.py lines 61-69). -/
structure ArtistsRow where
  artist_id : String
  artist_name : String
  artist_location : String
  artist_latitude : Rat
  artist_longitude : Rat
deriving DecidableEq, Repr

/-- A row of the users table (src/etl.py lines 99-107). -/
structure UsersRow where
  userId : String
  firstName : String
  lastName : String
  gender : String
  level : String
deriving DecidableEq, Repr

/-- A row of the time table (src/etl.py lines 114-127).  `start_time` is
`Option Int` (microseconds) because the SQL column is nullable; the `WHERE
start_time IS NOT NULL` clause is what keeps nulls out. -/
structure TimeRow where
  start_time : Option Int
  hour : Int
  day : Int
  week : Int
  month : Int
  year : Int
  weekday : Int
deriving DecidableEq, Repr

/-- A row of the songplays fact table (src/etl.py lines 139-153). -/
structure SongplayRow where
  songplay_id : Int
  start_time : Option Int
  userId : String
  level : String
  song_id : String
  artist_id : String
  sessionId : Int
  artist_location : String
  userAgent : String
deriving DecidableEq, Repr

/-- The projection of a song record taken by the songs-table query. -/
def songsRowOf (r : SongRecord) : SongsRow :=
  ⟨r.song_id, r.title, r.artist_id, r.year, r.duration⟩

/-- `SELECT DISTINCT song_id, title, artist_id, year, duration FROM songs`
(src/etl.py lines 46-54). -/
def songs_table (songs : List SongRecord) : List SongsRow :=
  (songs.map songsRowOf).dedup

/-- The projection of a song record taken by the artists-table query. -/
def artistsRowOf (r : SongRecord) : ArtistsRow :=
  ⟨r.artist_id, r.artist_name, r.artist_location, r.artist_latitude,
    r.artist_longitude⟩

/-- `SELECT DISTINCT artist_id, artist_name, artist_location,
artist_latitude, artist_longitude FROM songs` (src/etl.py lines 61-69). -/
def artists_table (songs : List SongRecord) : List ArtistsRow :=
  (songs.map artistsRowOf).dedup

/-- `df.filter(df.page == 'NextSong')` (src/etl.py line 93): the `log`
view over which all three log-side queries run. -/
def filtered_log (logs : List LogRecord) : List LogRecord :=
  logs.filter (fun e => e.page == "NextSong")

/-- The projection of a log record taken by the users-table query. -/
def usersRowOf (e : LogRecord) : UsersRow :=
  ⟨e.userId, e.firstName, e.lastName, e.gender, e.level⟩

/-- `SELECT DISTINCT userId, firstName, lastName, gender, level FROM log`
(src/etl.py lines 99-107). -/
def users_table (logs : List LogRecord) : List UsersRow :=
  ((filtered_log logs).map usersRowOf).dedup

/-- `to_timestamp(ts/1000) as start_time` applied to one log record: null
`ts` yields a null `start_time` (src/etl.py line 124). -/
def startTimeOf (e : LogRecord) : Option Int := e.ts.map to_timestamp_micros

/-- One row of the time table from a non-null `start_time`: the derived
columns `hour`, `day`, `week`, `month`, `year`, `weekday` of src/etl.py
lines 115-122.  Both `day` and `weekday` are `dayofweek(start_time)`. -/
def timeRowOf (st : Int) : TimeRow :=
  { start_time := some st
    hour := hourOf (secondsOf st)
    day := dayofweekOf (secondsOf st)
    week := weekofyearOf (secondsOf st)
    month := monthOf (secondsOf st)
    year := yearOf (secondsOf st)
    weekday := dayofweekOf (secondsOf st) }

/-- The time-table query (src/etl.py lines 114-127): derive `start_time`
for every `log` row, drop the rows where it is null (`WHERE start_time IS
NOT NULL`), and compute the derived columns.  The query has no DISTINCT. -/
def time_table (logs : List LogRecord) : List TimeRow :=
  ((filtered_log logs).map startTimeOf).filterMap (fun o => o.map timeRowOf)

/-- The pairs produced by `FROM log JOIN song ON (log.song = song.title)
AND (log.artist = song.artist_name)` (src/etl.py lines 150-153), over the
`NextSong`-filtered `log` view and the re-read song data. -/
def joinedPairs (songs : List SongRecord) (logs : List LogRecord) :
    List (LogRecord × SongRecord) :=
  (filtered_log logs).flatMap (fun e =>
    (songs.filter (fun s => e.song == s.title && e.artist == s.artist_name)).map
      (fun s => (e, s)))

/-- The songplays projection of one joined (log, song) pair, given the
synthetic `songplay_id` value assigned to the row (src/etl.py 140-149). -/
def songplayRowOf (id : Int) (e : LogRecord) (s : SongRecord) : SongplayRow :=
  { songplay_id := id
    start_time := startTimeOf e
    userId := e.userId
    level := e.level
    song_id := s.song_id
    artist_id := s.artist_id
    sessionId := e.sessionId
    artist_location := s.artist_location
    userAgent := e.userAgent }

/-- Assign `monotonically_increasing_id()` values to the joined rows in
order: row at position `k` (counting from `n`) gets id `ids (n + k)`.
`ids` abstracts the engine's run-dependent id sequence, which Spark
guarantees to be unique (injective) within a run. -/
def assignIds (ids : Nat → Int) : Nat → List (LogRecord × SongRecord) →
    List SongplayRow
  | _, [] => []
  | n, p :: rest => songplayRowOf (ids n) p.1 p.2 :: assignIds ids (n + 1) rest

/-- The songplays rows before the DISTINCT, ids assigned from position 0. -/
def songplaysRaw (ids : Nat → Int) (songs : List SongRecord)
    (logs : List LogRecord) : List SongplayRow :=
  assignIds ids 0 (joinedPairs songs logs)

/-- The songplays fact-table query (src/etl.py lines 139-153):
`SELECT DISTINCT monotonically_increasing_id() as songplay_id, ...` over
the join; the DISTINCT acts on rows that already carry their unique id. -/
def songplays_table (ids : Nat → Int) (songs : List SongRecord)
    (logs : List LogRecord) : List SongplayRow :=
  (songplaysRaw ids songs logs).dedup

/-- The full logical output of one run of the job: the five tables written
by `process_song_data` and `process_log_data`, for one run's id sequence. -/
structure JobOutput where
  songs : List SongsRow
  artists : List ArtistsRow
  users : List UsersRow
  time : List TimeRow
  songplays : List SongplayRow
deriving DecidableEq, Repr

/-- One run of the job body (`process_song_data` then `process_log_data`,
src/etl.py lines 175-176), as the five tables it computes and writes. -/
def runJob (ids : Nat → Int) (songs : List SongRecord)
    (logs : List LogRecord) : JobOutput :=
  { songs := songs_table songs
    artists := artists_table songs
    users := users_table logs
    time := time_table logs
    songplays := songplays_table ids songs logs }

/-- The data columns of a songplays row, without the synthetic
`songplay_id`; used to compare fact tables across runs. -/
structure SongplayData where
  start_time : Option Int
  userId : String
  level : String
  song_id : String
  artist_id : String
  sessionId : Int
  artist_location : String
  userAgent : String
deriving DecidableEq, Repr

/-- Project away the synthetic `songplay_id` column. -/
def dropId (r : SongplayRow) : SongplayData :=
  ⟨r.start_time, r.userId, r.level, r.song_id, r.artist_id, r.sessionId,
    r.artist_location, r.userAgent⟩

/-- The data columns of a joined pair, as they end up in the fact table. -/
def songplayDataOf (e : LogRecord) (s : SongRecord) : SongplayData :=
  ⟨startTimeOf e, e.userId, e.level, s.song_id, s.artist_id, e.sessionId,
    s.artist_location, e.userAgent⟩

/-! ### Output writes and the entry point -/

/-- One `DataFrame.write...parquet` call: the target path, the
`partitionBy` columns (in order), and the save mode. -/
structure WriteOp where
  path : String
  partitionBy : List String
  mode : String
deriving DecidableEq, Repr

/-- The two writes performed by `process_song_data` (src/etl.py lines 57
and 72), in program order. -/
def process_song_data_writes (output_data : String) : List WriteOp :=
  [{ path := output_data ++ "songs_tables/"
     partitionBy := ["year", "artist_id"]
     mode := "overwrite" },
   { path := output_data ++ "artists_tables/"
     partitionBy := []
     mode := "overwrite" }]

/-- The three writes performed by `process_log_data` (src/etl.py lines
110, 131 and 156), in program order. -/
def process_log_data_writes (output_data : String) : List WriteOp :=
  [{ path := output_data ++ "users_tables/"
     partitionBy := []
     mode := "overwrite" },
   { path := output_data ++ "time_tables/"
     partitionBy := []
     mode := "overwrite" },
   { path := output_data ++ "songplays_tables/"
     partitionBy := []
     mode := "overwrite" }]

/-- All five writes of one run, in program order (`process_song_data`
then `process_log_data`, src/etl.py lines 175-176). -/
def jobWrites (output_data : String) : List WriteOp :=
  process_song_data_writes output_data ++ process_log_data_writes output_data

/-- A Python value, as far as the `local_data` argument of `main` is
concerned: a bool, an int, or a string. -/
inductive PyVal where
  | pybool : Bool → PyVal
  | pyint : Int → PyVal
  | pystr : String → PyVal
deriving DecidableEq, Repr

/-- Python's `v == True`: in Python, `True` is the integer 1 (`bool` is a
subtype of `int`), so `1 == True` holds, while a string is never equal to
`True` (no implicit conversion, truthiness plays no role in `==`). -/
def pyEqTrue : PyVal → Bool
  | .pybool b => b
  | .pyint n => n == 1
  | .pystr _ => false

/-- The `(input_data, output_data)` pair selected by `main(local_data)`
(src/etl.py lines 168-173): `if local_data == True:` picks the local
pair, `else` the S3 pair. -/
def main_paths (local_data : PyVal) : String × String :=
  if pyEqTrue local_data then ("data/", "sparkify_data_lake/")
  else ("s3a://udacity-dend/", "s3a://udacity-dend/sparkify_data_lake/")

/-! ### Sample records used by the concrete scenario and witnesses -/

/-- The catalog record of the spec's example scenario (artist_location is
not specified there; the empty string is used). -/
def sampleSong : SongRecord :=
  ⟨"S1", "Song A", "E1", 2000, 200, "Band A", "", 1, 1⟩

/-- The event record of the spec's example scenario. -/
def sampleLog : LogRecord :=
  ⟨"NextSong", "7", "Jo", "Do", "F", "free", some 1541440000000, 1,
    "Song A", "Band A", "UA"⟩

/-- A `NextSong` event whose `ts` field is missing (null). -/
def noTsLog : LogRecord :=
  ⟨"NextSong", "8", "Al", "Bo", "M", "paid", none, 2, "Song A", "Band A",
    "UA2"⟩

/-- The spec's sample unmatched event: title "X" and entity "Y" appear in
no catalog row. -/
def unmatchedLog : LogRecord :=
  ⟨"NextSong", "9", "Cy", "Du", "F", "free", some 1541440001000, 3, "X",
    "Y", "UA3"⟩

/-- An event whose page is not `NextSong`. -/
def otherPageLog : LogRecord :=
  ⟨"Home", "7", "Jo", "Do", "F", "free", some 1541440002000, 4, "Song A",
    "Band A", "UA"⟩

/-- A concrete run id sequence: the identity embedding of the position. -/
def natId : Nat → Int := fun n => n

/-- A second concrete run id sequence, shifted by 7. -/
def shiftId : Nat → Int := fun n => (n : Int) + 7

theorem natId_injective : Function.Injective natId := by
  intro a b h
  simpa [natId] using h

theorem shiftId_injective : Function.Injective shiftId := by
  intro a b h
  simp [shiftId] at h
  omega

/-! ### Helper lemmas about the embedded queries -/

theorem mem_filtered_log {logs : List LogRecord} {e : LogRecord} :
    e ∈ filtered_log logs ↔ e ∈ logs ∧ e.page = "NextSong" := by
  simp [filtered_log]

theorem mem_joinedPairs {songs : List SongRecord} {logs : List LogRecord}
    {e : LogRecord} {s : SongRecord} :
    (e, s) ∈ joinedPairs songs logs ↔
      e ∈ filtered_log logs ∧ s ∈ songs ∧ e.song = s.title ∧
        e.artist = s.artist_name := by
  simp only [joinedPairs, List.mem_flatMap, List.mem_map, List.mem_filter,
    Bool.and_eq_true, beq_iff_eq, Prod.mk.injEq]
  constructor
  · rintro ⟨a, ha, b, ⟨hb, hbt, hba⟩, hae, hbs⟩
    subst hae; subst hbs
    exact ⟨ha, hb, hbt, hba⟩
  · rintro ⟨he, hs, ht, ha⟩
    exact ⟨e, he, s, ⟨hs, ht, ha⟩, rfl, rfl⟩

theorem mem_time_table {logs : List LogRecord} {row : TimeRow} :
    row ∈ time_table logs ↔
      ∃ e ∈ filtered_log logs, ∃ st : Int,
        startTimeOf e = some st ∧ row = timeRowOf st := by
  simp only [time_table, List.mem_filterMap, List.mem_map,
    Option.map_eq_some']
  constructor
  · rintro ⟨o, ⟨e, he, hoe⟩, st, hst, hrow⟩
    exact ⟨e, he, st, by rw [hoe, hst], hrow.symm⟩
  · rintro ⟨e, he, st, hst, hrow⟩
    exact ⟨startTimeOf e, ⟨e, he, rfl⟩, st, hst, hrow.symm⟩

theorem mem_assignIds {ids : Nat → Int} :
    ∀ (n : Nat) (ps : List (LogRecord × SongRecord)) (r : SongplayRow),
      r ∈ assignIds ids n ps →
      ∃ m p, p ∈ ps ∧ r = songplayRowOf (ids m) p.1 p.2 := by
  intro n ps
  induction ps generalizing n with
  | nil => intro r hr; simp [assignIds] at hr
  | cons p rest ih =>
    intro r hr
    rcases (by simpa [assignIds] using hr :
        r = songplayRowOf (ids n) p.1 p.2 ∨ r ∈ assignIds ids (n + 1) rest)
      with h | h
    · exact ⟨n, p, List.mem_cons_self .., h⟩
    · obtain ⟨m, q, hq, hrq⟩ := ih (n + 1) r h
      exact ⟨m, q, List.mem_cons_of_mem _ hq, hrq⟩

theorem assignIds_id_ge {ids : Nat → Int} :
    ∀ (n : Nat) (ps : List (LogRecord × SongRecord)) (r : SongplayRow),
      r ∈ assignIds ids n ps → ∃ m, n ≤ m ∧ r.songplay_id = ids m := by
  intro n ps
  induction ps generalizing n with
  | nil => intro r hr; simp [assignIds] at hr
  | cons p rest ih =>
    intro r hr
    rcases (by simpa [assignIds] using hr :
        r = songplayRowOf (ids n) p.1 p.2 ∨ r ∈ assignIds ids (n + 1) rest)
      with h | h
    · exact ⟨n, le_refl n, by rw [h]; rfl⟩
    · obtain ⟨m, hm, hid⟩ := ih (n + 1) r h
      exact ⟨m, by omega, hid⟩

theorem assignIds_nodup {ids : Nat → Int} (hinj : Function.Injective ids) :
    ∀ (n : Nat) (ps : List (LogRecord × SongRecord)),
      (assignIds ids n ps).Nodup := by
  intro n ps
  induction ps generalizing n with
  | nil => simp [assignIds]
  | cons p rest ih =>
    rw [assignIds, List.nodup_cons]
    refine ⟨fun hmem => ?_, ih (n + 1)⟩
    obtain ⟨m, hm, hid⟩ := assignIds_id_ge (n + 1) rest _ hmem
    have : ids n = ids m := hid
    have := hinj this
    omega

theorem assignIds_map_dropId {ids : Nat → Int} :
    ∀ (n : Nat) (ps : List (LogRecord × SongRecord)),
      (assignIds ids n ps).map dropId =
        ps.map (fun p => songplayDataOf p.1 p.2) := by
  intro n ps
  induction ps generalizing n with
  | nil => simp [assignIds]
  | cons p rest ih => simp [assignIds, ih (n + 1)]; rfl

theorem assignIds_length {ids : Nat → Int} :
    ∀ (n : Nat) (ps : List (LogRecord × SongRecord)),
      (assignIds ids n ps).length = ps.length := by
  intro n ps
  induction ps generalizing n with
  | nil => rfl
  | cons p rest ih => simp [assignIds, ih (n + 1)]

theorem songplays_table_eq_raw {ids : Nat → Int}
    (hinj : Function.Injective ids) (songs : List SongRecord)
    (logs : List LogRecord) :
    songplays_table ids songs logs = songplaysRaw ids songs logs :=
  List.dedup_eq_self.mpr (assignIds_nodup hinj 0 (joinedPairs songs logs))

/-! ### Claim theorems -/

/-- Claim C1 (join law): every row of the songplays fact table comes from
a filtered event `e` and a catalog row `s` with `e.song = s.title` and
`e.artist = s.artist_name`; and if no event/catalog pair matches exactly,
the fact table is empty, so an event with no exactly matching catalog row
produces no fact row. -/
theorem songplays_join_law (ids : Nat → Int) (songs : List SongRecord)
    (logs : List LogRecord) :
    (∀ row ∈ songplays_table ids songs logs,
      ∃ e ∈ filtered_log logs, ∃ s ∈ songs,
        e.song = s.title ∧ e.artist = s.artist_name ∧
          ∃ n, row = songplayRowOf (ids n) e s) ∧
    ((∀ e ∈ filtered_log logs, ∀ s ∈ songs,
        ¬(e.song = s.title ∧ e.artist = s.artist_name)) →
      songplays_table ids songs logs = []) := by
  constructor
  · intro row hrow
    rw [songplays_table, List.mem_dedup] at hrow
    obtain ⟨m, p, hp, hrp⟩ := mem_assignIds 0 _ row hrow
    have hj := mem_joinedPairs.mp (show (p.1, p.2) ∈ joinedPairs songs logs by
      simpa using hp)
    exact ⟨p.1, hj.1, p.2, hj.2.1, hj.2.2.1, hj.2.2.2, m, hrp⟩
  · intro hnone
    have hempty : joinedPairs songs logs = [] := by
      rw [List.eq_nil_iff_forall_not_mem]
      rintro ⟨e, s⟩ hp
      obtain ⟨he, hs, ht, ha⟩ := mem_joinedPairs.mp hp
      exact hnone e he s hs ⟨ht, ha⟩
    rw [songplays_table, songplaysRaw, hempty]
    rfl

/-- Claim C1 witness: the spec's sample — a single event with title "X"
and entity "Y" absent from the catalog produces an empty fact table. -/
theorem songplays_join_law_witness :
    songplays_table natId [sampleSong] [unmatchedLog] = [] :=
  (songplays_join_law natId [sampleSong] [unmatchedLog]).2 (by decide)

/-- Claim C2 (filtering law): every row of the users table and every row
of the songplays fact table is derived from an event whose `page` field
is exactly the string "NextSong"; events with any other page contribute
no row to either table. -/
theorem nextSong_filter_law (ids : Nat → Int) (songs : List SongRecord)
    (logs : List LogRecord) :
    (∀ row ∈ users_table logs,
      ∃ e ∈ logs, e.page = "NextSong" ∧ row = usersRowOf e) ∧
    (∀ row ∈ songplays_table ids songs logs,
      ∃ e ∈ logs, e.page = "NextSong" ∧
        ∃ s ∈ songs, ∃ n, row = songplayRowOf (ids n) e s) := by
  constructor
  · intro row hrow
    rw [users_table, List.mem_dedup, List.mem_map] at hrow
    obtain ⟨e, he, hre⟩ := hrow
    obtain ⟨hel, hep⟩ := mem_filtered_log.mp he
    exact ⟨e, hel, hep, hre.symm⟩
  · intro row hrow
    rw [songplays_table, List.mem_dedup] at hrow
    obtain ⟨m, p, hp, hrp⟩ := mem_assignIds 0 _ row hrow
    have hj := mem_joinedPairs.mp (show (p.1, p.2) ∈ joinedPairs songs logs by
      simpa using hp)
    obtain ⟨hel, hep⟩ := mem_filtered_log.mp hj.1
    exact ⟨p.1, hel, hep, p.2, hj.2.1, m, hrp⟩

/-- Claim C2 witness: with one "NextSong" event and one "Home" event, the
users row is derived from an event whose page is "NextSong". -/
theorem nextSong_filter_law_witness :
    ∃ e ∈ [sampleLog, otherPageLog], e.page = "NextSong" ∧
      usersRowOf sampleLog = usersRowOf e :=
  (nextSong_filter_law natId [] [sampleLog, otherPageLog]).1
    (usersRowOf sampleLog) (by decide)

/-- Claim C3 (null-timestamp law): no row of the time table has a null
`start_time`; the `WHERE start_time IS NOT NULL` clause drops every event
whose `ts` is missing before a row is formed. -/
theorem time_table_no_null_start_time (logs : List LogRecord)
    (row : TimeRow) (hrow : row ∈ time_table logs) :
    row.start_time.isSome = true := by
  obtain ⟨e, he, st, hst, hrw⟩ := mem_time_table.mp hrow
  rw [hrw]
  rfl

/-- Claim C3 witness: on a log containing an event with a missing `ts`,
the surviving time-table row has a non-null `start_time`. -/
theorem time_table_no_null_start_time_witness :
    (timeRowOf 1541440000000000).start_time.isSome = true :=
  time_table_no_null_start_time [sampleLog, noTsLog]
    (timeRowOf 1541440000000000) (by decide)

/-- An event record whose `ts` is 1500 milliseconds, showing the
sub-second part of the timestamp. -/
def tsLog1500 : LogRecord :=
  ⟨"NextSong", "7", "Jo", "Do", "F", "free", some 1500, 1, "Song A",
    "Band A", "UA"⟩

/-- Claim C4 counterexample: for the concrete event with `ts = 1500` ms,
the derived `start_time` is not `floor(1500 / 1000) = 1` second
(1000000 microseconds) as the claim's integer-division reading demands:
Spark's `/` is true division and `to_timestamp` keeps the fraction, so
the code produces 1.5 s (1500000 microseconds). -/
theorem start_time_truncation_counterexample :
    startTimeOf tsLog1500 ≠ some (((1500 : Int).fdiv 1000) * 1000000) := by
  decide

/-- Claim C4 (amended): for every event record with a non-null
millisecond timestamp `t`, the derived `start_time` equals `t / 1000`
seconds exactly, i.e. `t * 1000` microseconds — the millisecond
(sub-second) precision is preserved, not truncated. -/
theorem start_time_preserves_milliseconds (e : LogRecord) (t : Int)
    (h : e.ts = some t) : startTimeOf e = some (t * 1000) := by
  simp [startTimeOf, h, to_timestamp_micros]

/-- Claim C4 (amended) witness: the sample event's `ts` of 1541440000000
ms becomes 1541440000000000 microseconds, keeping every millisecond. -/
theorem start_time_preserves_milliseconds_witness :
    startTimeOf sampleLog = some (1541440000000 * 1000) :=
  start_time_preserves_milliseconds sampleLog 1541440000000 rfl

/-- Claim C5 (idempotence): two runs over the same input, differing only
in the engine's (injective) synthetic-id sequences, produce equal songs,
artists, users and time tables, and songplays tables that are equal after
the synthetic `songplay_id` column is projected away. -/
theorem job_idempotent_up_to_songplay_id (ids1 ids2 : Nat → Int)
    (h1 : Function.Injective ids1) (h2 : Function.Injective ids2)
    (songs : List SongRecord) (logs : List LogRecord) :
    (runJob ids1 songs logs).songs = (runJob ids2 songs logs).songs ∧
    (runJob ids1 songs logs).artists = (runJob ids2 songs logs).artists ∧
    (runJob ids1 songs logs).users = (runJob ids2 songs logs).users ∧
    (runJob ids1 songs logs).time = (runJob ids2 songs logs).time ∧
    (runJob ids1 songs logs).songplays.map dropId =
      (runJob ids2 songs logs).songplays.map dropId := by
  refine ⟨rfl, rfl, rfl, rfl, ?_⟩
  show (songplays_table ids1 songs logs).map dropId =
    (songplays_table ids2 songs logs).map dropId
  rw [songplays_table_eq_raw h1, songplays_table_eq_raw h2, songplaysRaw,
    songplaysRaw, assignIds_map_dropId, assignIds_map_dropId]

/-- Claim C5 witness: two concrete runs with the id sequences `n ↦ n` and
`n ↦ n + 7` over the sample input agree on the four dimension tables and
on the fact table without its id column. -/
theorem job_idempotent_up_to_songplay_id_witness :
    (runJob natId [sampleSong] [sampleLog]).songs =
      (runJob shiftId [sampleSong] [sampleLog]).songs ∧
    (runJob natId [sampleSong] [sampleLog]).artists =
      (runJob shiftId [sampleSong] [sampleLog]).artists ∧
    (runJob natId [sampleSong] [sampleLog]).users =
      (runJob shiftId [sampleSong] [sampleLog]).users ∧
    (runJob natId [sampleSong] [sampleLog]).time =
      (runJob shiftId [sampleSong] [sampleLog]).time ∧
    (runJob natId [sampleSong] [sampleLog]).songplays.map dropId =
      (runJob shiftId [sampleSong] [sampleLog]).songplays.map dropId :=
  job_idempotent_up_to_songplay_id natId shiftId natId_injective
    shiftId_injective [sampleSong] [sampleLog]

/-- Claim C6 (single-record scenario): the spec's example catalog record
and event record produce exactly one row per table: songs keyed "S1",
artists keyed "E1", users keyed "7", one time row whose `start_time` is
the decoded timestamp (2018-11-05 17:46:40 UTC), and one fact row linking
user "7" to song "S1". -/
theorem single_record_scenario :
    runJob natId [sampleSong] [sampleLog] =
      { songs := [⟨"S1", "Song A", "E1", 2000, 200⟩]
        artists := [⟨"E1", "Band A", "", 1, 1⟩]
        users := [⟨"7", "Jo", "Do", "F", "free"⟩]
        time := [⟨some 1541440000000000, 17, 2, 45, 11, 2018, 2⟩]
        songplays := [⟨0, some 1541440000000000, "7", "free", "S1", "E1",
          1, "", "UA"⟩] } := by
  decide

/-- Claim C7 (weekday duplicates day): in every time-table row, the
`weekday` column equals the `day` column — both are
`dayofweek(start_time)` of the same timestamp. -/
theorem time_table_weekday_eq_day (logs : List LogRecord) (row : TimeRow)
    (hrow : row ∈ time_table logs) : row.weekday = row.day := by
  obtain ⟨e, he, st, hst, hrw⟩ := mem_time_table.mp hrow
  rw [hrw]
  rfl

/-- Claim C7 witness: the sample event's time row has equal `weekday` and
`day` columns. -/
theorem time_table_weekday_eq_day_witness :
    (timeRowOf 1541440000000000).weekday = (timeRowOf 1541440000000000).day :=
  time_table_weekday_eq_day [sampleLog] (timeRowOf 1541440000000000)
    (by decide)

/-- Claim C8 (output layout): for every output root, the run performs
exactly five writes, to `songs_tables/`, `artists_tables/`,
`users_tables/`, `time_tables/` and `songplays_tables/` under the root,
each in overwrite mode; only the songs table is partitioned, by `year`
then `artist_id`. -/
theorem output_writes_layout (out : String) :
    (jobWrites out).map WriteOp.path =
      [out ++ "songs_tables/", out ++ "artists_tables/",
        out ++ "users_tables/", out ++ "time_tables/",
        out ++ "songplays_tables/"] ∧
    (jobWrites out).map WriteOp.partitionBy =
      [["year", "artist_id"], [], [], [], []] ∧
    (jobWrites out).map WriteOp.mode =
      ["overwrite", "overwrite", "overwrite", "overwrite", "overwrite"] :=
  ⟨rfl, rfl, rfl⟩

/-- Claim C9 (DISTINCT is a no-op on songplays): because each joined row
carries a fresh unique id before deduplication, the DISTINCT removes
nothing — the fact table equals the raw id-assigned join output and has
exactly one row per joined (event, catalog) pair, duplicates included. -/
theorem songplays_distinct_is_noop (ids : Nat → Int)
    (hinj : Function.Injective ids) (songs : List SongRecord)
    (logs : List LogRecord) :
    songplays_table ids songs logs = songplaysRaw ids songs logs ∧
    (songplays_table ids songs logs).length =
      (joinedPairs songs logs).length := by
  refine ⟨songplays_table_eq_raw hinj songs logs, ?_⟩
  rw [songplays_table_eq_raw hinj songs logs, songplaysRaw, assignIds_length]

/-- Claim C9 witness: two identical qualifying events each produce their
own fact row — the deduplicated table still has two rows. -/
theorem songplays_distinct_is_noop_witness :
    (songplays_table natId [sampleSong] [sampleLog, sampleLog]).length = 2 := by
  have h := songplays_distinct_is_noop natId natId_injective [sampleSong]
    [sampleLog, sampleLog]
  rw [h.2]
  decide

/-- Claim C10 (mode test is `== True`): `main` selects the local
input/output pair exactly when `local_data == True` holds in Python's
sense — so `True` and `1` select the local pair, while every other value,
including the truthy string "true", selects the remote S3 pair. -/
theorem main_mode_equality_test :
    main_paths (.pybool true) = ("data/", "sparkify_data_lake/") ∧
    main_paths (.pyint 1) = ("data/", "sparkify_data_lake/") ∧
    main_paths (.pystr "true") =
      ("s3a://udacity-dend/", "s3a://udacity-dend/sparkify_data_lake/") ∧
    ∀ v : PyVal, main_paths v = ("data/", "sparkify_data_lake/") ↔
      pyEqTrue v = true := by
  refine ⟨rfl, rfl, rfl, ?_⟩
  intro v
  by_cases h : pyEqTrue v = true
  · simp [main_paths, h]
  · simp [main_paths, h]

end SparkifyEtl
